import Mathlib

set_option maxHeartbeats 1000000

/-!
Shallow embedding of the job-application backend of this repository.

The repository ships two Express servers over the same `job_applications`
table: `src/Backend/server.js` (deployed by docker-compose together with
`init.sql`) and a second server in `src/unnamed/part_000` (which creates its
own table). Pure Lean functions below mirror each HTTP handler: the database
is a list of rows, the Document Store (the Uploads directory) is a list of
filenames, and the multer middleware staging of uploads is made explicit.
Randomness (generated reference ids, staged filenames) is passed in as a
parameter. Namespace `Unnamed` embeds the server of `src/unnamed/part_000`;
namespace `Backend` embeds `src/Backend/server.js`.
-/

/-- Row of the `job_applications` table: the columns that the embedded
handlers read or write. Profile columns the handlers merely copy through
(dob, father_name, percentages, ...) do not influence any control flow and
are omitted from the row. -/
structure AppRecord where
  id : Nat
  reference_id : String
  full_name : String
  email : String
  mobile_number : String
  department : String
  job_role : String
  status : String
  ssc_doc_path : Option String
  intermediate_doc_path : Option String
  graduation_doc_path : Option String
  additional_files_path : Option String
  offer_letter_path : Option String
deriving Repr, DecidableEq

/-- The persisted table: one row per application. -/
abbrev Database := List AppRecord

/-- The Document Store: filenames present in the Uploads directory. -/
abbrev DocumentStore := List String

/-- Multipart form data: field name / value pairs as parsed by multer. -/
abbrev FormData := List (String × String)

/-- Value of a form field, when the client sent it. -/
def FormData.get (form : FormData) (field : String) : Option String :=
  (form.find? (fun p => p.1 == field)).map (fun p => p.2)

/-- JS truthiness of formData[field]: the field is present and not the
empty string (the only falsy string value). -/
def FormData.truthy (form : FormData) (field : String) : Bool :=
  match form.get field with
  | some v => v != ""
  | none => false

/-- Files staged by the multer middleware for one submission, keyed by
upload field name; each value is the generated filename on disk. -/
structure UploadedFiles where
  sscDoc : Option String
  intermediateDoc : Option String
  graduationDoc : Option String
  additionalFiles : Option String
deriving Repr, DecidableEq

/-- Filenames multer wrote into the Uploads directory before the route
handler runs. -/
def UploadedFiles.staged (files : UploadedFiles) : List String :=
  files.sscDoc.toList ++ files.intermediateDoc.toList ++
    files.graduationDoc.toList ++ files.additionalFiles.toList

/-- Next SERIAL primary key for a fresh row. -/
def nextId (db : Database) : Nat :=
  db.foldr (fun r m => max r.id m) 0 + 1

/-- The closed status set checked by PUT /api/applications/:id in both
servers: `['Pending', 'Approved', 'Rejected'].includes(status)`. -/
def validStatuses : List String := ["Pending", "Approved", "Rejected"]

/-- Outcome of a handler that can touch the database and the Document
Store: the HTTP response, the table after the request, and the store after
the request. -/
structure StoreOutcome (ρ : Type) where
  response : ρ
  db : Database
  store : DocumentStore
deriving Repr, DecidableEq

/-- Outcome of a handler that touches only the database; `queries` counts
the pool.query calls the handler performed. -/
structure DbOutcome (ρ : Type) where
  response : ρ
  db : Database
  queries : Nat
deriving Repr, DecidableEq

namespace Unnamed

/-- Uniqueness constraints of the CREATE TABLE in src/unnamed/part_000:
reference_id, email and mobile_number are each UNIQUE. -/
inductive InsertError
  | referenceIdKey
  | emailKey
  | mobileNumberKey
deriving Repr, DecidableEq

/-- INSERT INTO job_applications honouring the three UNIQUE constraints;
the status column is absent from the INSERT list and takes the table
default value Pending. -/
def insertRecord (db : Database) (r : AppRecord) : Except InsertError Database :=
  if db.any (fun q => q.reference_id == r.reference_id) then .error .referenceIdKey
  else if db.any (fun q => q.email == r.email) then .error .emailKey
  else if db.any (fun q => q.mobile_number == r.mobile_number) then .error .mobileNumberKey
  else .ok (db ++ [r])

/-- The requiredFields array of POST /api/applications in
src/unnamed/part_000 (lines 172-179). -/
def requiredFields : List String :=
  ["full_name", "email", "mobile_number", "department", "job_role",
   "dob", "father_name", "permanent_address", "expected_salary",
   "employment_type", "branch_location", "ssc_year", "ssc_percentage",
   "intermediate_year", "intermediate_percentage", "college_name",
   "register_number", "graduation_year", "graduation_percentage",
   "experience_status"]

/-- The for-loop over requiredFields returns on the FIRST field that is
missing or empty. -/
def firstMissingField (form : FormData) : Option String :=
  requiredFields.find? (fun f => !form.truthy f)

/-- HTTP responses of POST /api/applications in src/unnamed/part_000. -/
inductive SubmitResult
  | created (referenceId : String)
  | missingField (field : String)
  | missingDocuments
  | submitError (message : String)
deriving Repr, DecidableEq

/-- The catch-block message mapping of POST /api/applications: the email
and mobile_number key constraints map to dedicated messages, every other
insert failure (the reference_id key included) maps to the generic one. -/
def constraintMessage : InsertError → String
  | .emailKey => "Email already exists"
  | .mobileNumberKey => "Mobile number already exists"
  | .referenceIdKey => "Failed to submit application"

/-- Handler body of POST /api/applications in src/unnamed/part_000, run on
the state after multer staged the uploaded files into `store`. -/
def submitApplication (db : Database) (store : DocumentStore)
    (form : FormData) (files : UploadedFiles) (referenceId : String) :
    StoreOutcome SubmitResult :=
  match firstMissingField form with
  | some f => ⟨.missingField f, db, store⟩
  | none =>
    if files.sscDoc.isNone || files.intermediateDoc.isNone
        || files.graduationDoc.isNone then
      ⟨.missingDocuments, db, store⟩
    else
      let r : AppRecord :=
        { id := nextId db
          reference_id := referenceId
          full_name := (form.get "full_name").getD ""
          email := (form.get "email").getD ""
          mobile_number := (form.get "mobile_number").getD ""
          department := (form.get "department").getD ""
          job_role := (form.get "job_role").getD ""
          status := "Pending"
          ssc_doc_path := files.sscDoc
          intermediate_doc_path := files.intermediateDoc
          graduation_doc_path := files.graduationDoc
          additional_files_path := files.additionalFiles
          offer_letter_path := none }
      match insertRecord db r with
      | .ok db1 => ⟨.created referenceId, db1, store⟩
      | .error e => ⟨.submitError (constraintMessage e), db, store⟩

/-- Whole request POST /api/applications: multer stages the uploads into
the Document Store, then the handler body runs. No branch of the handler
removes the staged files. -/
def handleSubmitRequest (db : Database) (store : DocumentStore)
    (form : FormData) (files : UploadedFiles) (referenceId : String) :
    StoreOutcome SubmitResult :=
  submitApplication db (store ++ files.staged) form files referenceId

/-- HTTP responses of PUT /api/applications/:id in src/unnamed/part_000. -/
inductive PutResult
  | updated (id : Nat) (status : String)
  | invalidId
  | invalidStatus
  | notFound
deriving Repr, DecidableEq

/-- Handler PUT /api/applications/:id of src/unnamed/part_000: parseInt on
the id (`none` models NaN), then the status whitelist, then a single
UPDATE ... RETURNING id, status. -/
def updateStatus (db : Database) (idParam : Option Nat) (status : String) :
    DbOutcome PutResult :=
  match idParam with
  | none => ⟨.invalidId, db, 0⟩
  | some id =>
    if status ∈ validStatuses then
      match db.find? (fun r => r.id == id) with
      | none => ⟨.notFound, db, 1⟩
      | some _ =>
        ⟨.updated id status,
         db.map (fun q => if q.id = id then { q with status := status } else q),
         1⟩
    else ⟨.invalidStatus, db, 0⟩

/-- HTTP responses of POST /api/applications/:id/offer-letter in
src/unnamed/part_000. -/
inductive OfferUploadResult
  | uploaded (id : Nat) (path : String)
  | invalidId
  | noFile
  | notFound
  | notApproved
deriving Repr, DecidableEq

/-- Handler POST /api/applications/:id/offer-letter of
src/unnamed/part_000, run on the state after multer staged `file` into
`store`. Order of checks: NaN id (file kept), no file, application absent
(file unlinked), status not Approved (file unlinked); on success the
previous offer letter file, when recorded and present on disk, is deleted
and the pointer is set to the new filename. -/
def uploadOfferLetter (db : Database) (store : DocumentStore)
    (idParam : Option Nat) (file : Option String) :
    StoreOutcome OfferUploadResult :=
  match idParam with
  | none => ⟨.invalidId, db, store⟩
  | some id =>
    match file with
    | none => ⟨.noFile, db, store⟩
    | some fname =>
      match db.find? (fun r => r.id == id) with
      | none => ⟨.notFound, db, store.erase fname⟩
      | some r =>
        if r.status ≠ "Approved" then ⟨.notApproved, db, store.erase fname⟩
        else
          let store1 :=
            match r.offer_letter_path with
            | some old => if old ∈ store then store.erase old else store
            | none => store
          ⟨.uploaded id fname,
           db.map (fun q =>
             if q.id = id then { q with offer_letter_path := some fname } else q),
           store1⟩

/-- HTTP responses of GET /api/offer-letter in src/unnamed/part_000; the
three 404 variants are distinct constructors with distinct messages. -/
inductive OfferRetrievalResult
  | found (path : String)
  | missingParams
  | appNotFoundOrNotApproved
  | offerLetterNotFound
  | fileNotFoundOnServer
deriving Repr, DecidableEq

/-- WHERE clause of the retrieval query: reference_id and email both match
and status is Approved. -/
def offerQueryMatch (rid em : String) (r : AppRecord) : Bool :=
  r.reference_id == rid && r.email == em && r.status == "Approved"

/-- Handler GET /api/offer-letter of src/unnamed/part_000: both query
parameters required, then the SELECT with the three-way match, then the
pointer check, then the existsSync check on the file. -/
def getOfferLetter (db : Database) (store : DocumentStore)
    (referenceId email : Option String) : OfferRetrievalResult :=
  match referenceId, email with
  | some rid, some em =>
    if rid == "" || em == "" then .missingParams
    else
      match db.find? (offerQueryMatch rid em) with
      | none => .appNotFoundOrNotApproved
      | some r =>
        match r.offer_letter_path with
        | none => .offerLetterNotFound
        | some p => if p ∈ store then .found p else .fileNotFoundOnServer
  | _, _ => .missingParams

end Unnamed

namespace Backend

/-- The requiredFields array of POST /api/applications in
src/Backend/server.js (lines 154-157). -/
def requiredFields : List String :=
  ["full_name", "email", "mobile_number", "department", "job_role"]

/-- The filter over requiredFields collects EVERY field that is missing or
empty, not just the first. -/
def missingFields (form : FormData) : List String :=
  requiredFields.filter (fun f => !form.truthy f)

/-- Uniqueness constraints of init.sql, the schema the docker-compose
deployment of this server initialises: only reference_id is UNIQUE (email
and mobile_number carry no unique constraint there). -/
def insertRecord (db : Database) (r : AppRecord) : Except Unit Database :=
  if db.any (fun q => q.reference_id == r.reference_id) then .error ()
  else .ok (db ++ [r])

/-- HTTP responses of POST /api/applications in src/Backend/server.js. -/
inductive SubmitResult
  | created (referenceId : String)
  | missingRequiredFields (missing : List String)
  | internalError
deriving Repr, DecidableEq

/-- Handler body of POST /api/applications in src/Backend/server.js, run
on the state after multer staged the uploaded files into `store`: collect
all missing required fields; if any, 400 with the whole list; otherwise
INSERT with status Pending and the staged basenames (documents are not
required by this server); any insert failure lands in the catch block as a
generic 500. -/
def submitApplication (db : Database) (store : DocumentStore)
    (form : FormData) (files : UploadedFiles) (referenceId : String) :
    StoreOutcome SubmitResult :=
  let missing := missingFields form
  if missing.isEmpty then
    let r : AppRecord :=
      { id := nextId db
        reference_id := referenceId
        full_name := (form.get "full_name").getD ""
        email := (form.get "email").getD ""
        mobile_number := (form.get "mobile_number").getD ""
        department := (form.get "department").getD ""
        job_role := (form.get "job_role").getD ""
        status := "Pending"
        ssc_doc_path := files.sscDoc
        intermediate_doc_path := files.intermediateDoc
        graduation_doc_path := files.graduationDoc
        additional_files_path := files.additionalFiles
        offer_letter_path := none }
    match insertRecord db r with
    | .ok db1 => ⟨.created referenceId, db1, store⟩
    | .error _ => ⟨.internalError, db, store⟩
  else ⟨.missingRequiredFields missing, db, store⟩

/-- Whole request POST /api/applications of src/Backend/server.js: multer
stages the uploads, then the handler body runs; no branch removes the
staged files. -/
def handleSubmitRequest (db : Database) (store : DocumentStore)
    (form : FormData) (files : UploadedFiles) (referenceId : String) :
    StoreOutcome SubmitResult :=
  submitApplication db (store ++ files.staged) form files referenceId

/-- HTTP responses of PUT /api/applications/:id in src/Backend/server.js;
`updated` carries the row returned by UPDATE ... RETURNING *. -/
inductive PutResult
  | updated (record : AppRecord)
  | invalidStatus
  | notFound
deriving Repr, DecidableEq

/-- Handler PUT /api/applications/:id of src/Backend/server.js: the status
whitelist is checked first, then a single UPDATE ... RETURNING *. -/
def updateStatus (db : Database) (id : Nat) (status : String) :
    DbOutcome PutResult :=
  if status ∈ validStatuses then
    match db.find? (fun r => r.id == id) with
    | none => ⟨.notFound, db, 1⟩
    | some r =>
      ⟨.updated { r with status := status },
       db.map (fun q => if q.id = id then { q with status := status } else q),
       1⟩
  else ⟨.invalidStatus, db, 0⟩

/-- HTTP responses of POST /api/applications/:id/offer-letter in
src/Backend/server.js. -/
inductive OfferUploadResult
  | uploaded (path : String)
  | noFile
  | notFound
deriving Repr, DecidableEq

/-- Handler POST /api/applications/:id/offer-letter of
src/Backend/server.js, run on the state after multer staged `file` into
`store`: no file gives 400; otherwise one UPDATE sets offer_letter_path
for the row, unconditionally on its status; rowCount 0 unlinks the staged
file and gives 404. The previous offer letter file is never deleted. -/
def uploadOfferLetter (db : Database) (store : DocumentStore)
    (id : Nat) (file : Option String) : StoreOutcome OfferUploadResult :=
  match file with
  | none => ⟨.noFile, db, store⟩
  | some fname =>
    match db.find? (fun r => r.id == id) with
    | none => ⟨.notFound, db, store.erase fname⟩
    | some _ =>
      ⟨.uploaded fname,
       db.map (fun q =>
         if q.id = id then { q with offer_letter_path := some fname } else q),
       store⟩

end Backend

/-! Concrete fixtures used by the witnesses and counterexamples below. -/

/-- A Pending application with no documents on file. -/
def pendingApp : AppRecord :=
  { id := 1, reference_id := "REFPEND0001", full_name := "John Doe",
    email := "john@x.com", mobile_number := "9876543210",
    department := "Engineering", job_role := "Developer",
    status := "Pending", ssc_doc_path := none, intermediate_doc_path := none,
    graduation_doc_path := none, additional_files_path := none,
    offer_letter_path := none }

/-- An Approved application with no offer letter yet. -/
def approvedApp : AppRecord :=
  { pendingApp with
    id := 2
    reference_id := "REFAPPR0002"
    email := "jane@x.com"
    mobile_number := "9876543211"
    status := "Approved" }

/-- An Approved application with a recorded offer letter file. -/
def approvedWithOffer : AppRecord :=
  { approvedApp with
    id := 3
    reference_id := "REFAPPR0003"
    email := "mary@x.com"
    mobile_number := "9876543212"
    offer_letter_path := some "offerLetter-100-old.pdf" }

/-- A form carrying every required field of the part_000 server. -/
def fullForm : FormData :=
  [("full_name", "A"), ("email", "a@x.com"), ("mobile_number", "1111111111"),
   ("department", "Eng"), ("job_role", "Dev"), ("dob", "2000-01-01"),
   ("father_name", "B"), ("permanent_address", "Street 1"),
   ("expected_salary", "100"), ("employment_type", "Full-Time"),
   ("branch_location", "HQ"), ("ssc_year", "2015"), ("ssc_percentage", "80"),
   ("intermediate_year", "2017"), ("intermediate_percentage", "80"),
   ("college_name", "C"), ("register_number", "R1"),
   ("graduation_year", "2021"), ("graduation_percentage", "80"),
   ("experience_status", "No")]

/-- All three required documents staged by multer. -/
def allDocs : UploadedFiles :=
  { sscDoc := some "sscDoc-1.pdf", intermediateDoc := some "intermediateDoc-1.pdf",
    graduationDoc := some "graduationDoc-1.pdf", additionalFiles := none }

/-- Only the SSC document staged; the other two required documents are
absent from the submission. -/
def onlySscDoc : UploadedFiles :=
  { sscDoc := some "sscDoc-7.pdf", intermediateDoc := none,
    graduationDoc := none, additionalFiles := none }

/-- A record whose email collides with the email of fullForm. -/
def dupEmailApp : AppRecord :=
  { pendingApp with
    id := 9
    reference_id := "REFDUP0009"
    email := "a@x.com"
    mobile_number := "9999999999" }

/-- A record whose reference_id collides with a generator output. -/
def collidingApp : AppRecord :=
  { pendingApp with
    id := 4
    reference_id := "AAAAAAAAAAAAAAA"
    email := "z@x.com"
    mobile_number := "3333333333" }

/-- The fullForm with both full_name and email absent. -/
def formMissingTwo : FormData :=
  [("mobile_number", "1111111111"),
   ("department", "Eng"), ("job_role", "Dev"), ("dob", "2000-01-01"),
   ("father_name", "B"), ("permanent_address", "Street 1"),
   ("expected_salary", "100"), ("employment_type", "Full-Time"),
   ("branch_location", "HQ"), ("ssc_year", "2015"), ("ssc_percentage", "80"),
   ("intermediate_year", "2017"), ("intermediate_percentage", "80"),
   ("college_name", "C"), ("register_number", "R1"),
   ("graduation_year", "2021"), ("graduation_percentage", "80"),
   ("experience_status", "No")]

/-! Claim theorems. -/

/-- C9: for every status-update request whose target status value is not
one of Pending, Approved, Rejected, both servers reject it with a 400
validation response before any database query, and the table (hence the
stored status of every record) is unchanged. -/
theorem C9_invalid_status_rejected (db : Database) (id : Nat) (s : String)
    (hs : s ∉ validStatuses) :
    Backend.updateStatus db id s = ⟨.invalidStatus, db, 0⟩
    ∧ Unnamed.updateStatus db (some id) s = ⟨.invalidStatus, db, 0⟩ := by
  refine ⟨?_, ?_⟩
  · simp [Backend.updateStatus, hs]
  · simp [Unnamed.updateStatus, hs]

/-- C9 witness: PUT status Cancelled on an existing Approved record gives
the 400 validation response, zero queries, and an unchanged table. -/
theorem C9_invalid_status_rejected_witness :
    Backend.updateStatus [approvedApp] 2 "Cancelled" =
      ⟨.invalidStatus, [approvedApp], 0⟩
    ∧ Unnamed.updateStatus [approvedApp] (some 2) "Cancelled" =
      ⟨.invalidStatus, [approvedApp], 0⟩ :=
  C9_invalid_status_rejected [approvedApp] 2 "Cancelled" (by decide)

/-- C10: in the status-update operation of both servers, the whitelist
check on the target status runs before the existence lookup: an invalid
status value always yields the 400 validation response (never the 404
not-found response), with zero pool.query calls, even when no application
with the given id exists. -/
theorem C10_validation_precedes_lookup (db : Database) (id : Nat)
    (idParam : Option Nat) (s : String) (hs : s ∉ validStatuses) :
    ((Backend.updateStatus db id s).response = .invalidStatus
      ∧ (Backend.updateStatus db id s).response ≠ .notFound
      ∧ (Backend.updateStatus db id s).queries = 0
      ∧ (Backend.updateStatus db id s).db = db)
    ∧ (((Unnamed.updateStatus db idParam s).response = .invalidStatus
        ∨ (Unnamed.updateStatus db idParam s).response = .invalidId)
      ∧ (Unnamed.updateStatus db idParam s).response ≠ .notFound
      ∧ (Unnamed.updateStatus db idParam s).queries = 0
      ∧ (Unnamed.updateStatus db idParam s).db = db) := by
  refine ⟨?_, ?_⟩
  · simp [Backend.updateStatus, hs]
  · cases idParam <;> simp [Unnamed.updateStatus, hs]

/-- C10 witness: PUT status Cancelled for id 999, which no record carries,
yields the validation response rather than not-found, with zero queries. -/
theorem C10_validation_precedes_lookup_witness :
    ((Backend.updateStatus [approvedApp] 999 "Cancelled").response = .invalidStatus
      ∧ (Backend.updateStatus [approvedApp] 999 "Cancelled").response ≠ .notFound
      ∧ (Backend.updateStatus [approvedApp] 999 "Cancelled").queries = 0
      ∧ (Backend.updateStatus [approvedApp] 999 "Cancelled").db = [approvedApp])
    ∧ (((Unnamed.updateStatus [approvedApp] (some 999) "Cancelled").response = .invalidStatus
        ∨ (Unnamed.updateStatus [approvedApp] (some 999) "Cancelled").response = .invalidId)
      ∧ (Unnamed.updateStatus [approvedApp] (some 999) "Cancelled").response ≠ .notFound
      ∧ (Unnamed.updateStatus [approvedApp] (some 999) "Cancelled").queries = 0
      ∧ (Unnamed.updateStatus [approvedApp] (some 999) "Cancelled").db = [approvedApp]) :=
  C10_validation_precedes_lookup [approvedApp] 999 (some 999) "Cancelled" (by decide)

/-- C3 counterexample: the status field is not one-way. PUT with target
status Pending on an Approved record succeeds in both servers and moves
the record from the terminal state Approved back to Pending. -/
theorem C3_counterexample :
    approvedApp.status = "Approved"
    ∧ Backend.updateStatus [approvedApp] 2 "Pending" =
      ⟨.updated { approvedApp with status := "Pending" },
       [{ approvedApp with status := "Pending" }], 1⟩
    ∧ (Unnamed.updateStatus [approvedApp] (some 2) "Pending").response =
      .updated 2 "Pending"
    ∧ (Unnamed.updateStatus [approvedApp] (some 2) "Pending").db =
      [{ approvedApp with status := "Pending" }] := by decide

/-- C3 amended: the status-update endpoint of both servers checks only
that the target value is one of Pending, Approved, Rejected; for any
existing record it applies any of the three values, including setting an
Approved or Rejected record back to Pending, so the status field is not
monotonic. -/
theorem C3_any_whitelisted_transition_applies (db : Database) (id : Nat)
    (s : String) (r : AppRecord) (hs : s ∈ validStatuses)
    (hr : db.find? (fun q => q.id == id) = some r) :
    Backend.updateStatus db id s =
      ⟨.updated { r with status := s },
       db.map (fun q => if q.id = id then { q with status := s } else q), 1⟩
    ∧ Unnamed.updateStatus db (some id) s =
      ⟨.updated id s,
       db.map (fun q => if q.id = id then { q with status := s } else q), 1⟩ := by
  refine ⟨?_, ?_⟩
  · simp [Backend.updateStatus, hs, hr]
  · simp [Unnamed.updateStatus, hs, hr]

/-- C3 amended witness: a terminal Approved record is moved back to
Pending by the endpoint. -/
theorem C3_any_whitelisted_transition_applies_witness :
    Backend.updateStatus [approvedApp] 2 "Pending" =
      ⟨.updated { approvedApp with status := "Pending" },
       [approvedApp].map
         (fun q => if q.id = 2 then { q with status := "Pending" } else q), 1⟩
    ∧ Unnamed.updateStatus [approvedApp] (some 2) "Pending" =
      ⟨.updated 2 "Pending",
       [approvedApp].map
         (fun q => if q.id = 2 then { q with status := "Pending" } else q), 1⟩ :=
  C3_any_whitelisted_transition_applies [approvedApp] 2 "Pending" approvedApp
    (by decide) (by decide)

/-- C1 counterexample: the Backend server applies no status gate on
offer-letter issuance. On a Pending application with a file attached the
operation succeeds, the offer_letter_path field of the record is modified,
and the uploaded file stays in the store, each contradicting the claim
that the operation fails with a 400 and mutates nothing unless the status
is Approved. -/
theorem C1_counterexample :
    pendingApp.status = "Pending"
    ∧ Backend.uploadOfferLetter [pendingApp] ["offerLetter-1.pdf"] 1
        (some "offerLetter-1.pdf") =
      ⟨.uploaded "offerLetter-1.pdf",
       [{ pendingApp with offer_letter_path := some "offerLetter-1.pdf" }],
       ["offerLetter-1.pdf"]⟩ := by decide

/-- C1 amended: the server of src/unnamed/part_000 behaves as claimed:
with a numeric id and a file attached, issuance succeeds exactly when the
application exists with status Approved; on a Pending or Rejected
application it fails with the 400 not-approved response, the staged file
is removed, and the table is unchanged; on a missing application it fails
with 404 and likewise removes the staged file. The Backend server checks
only existence: with a file attached it succeeds for any existing
application regardless of status. -/
theorem C1_offer_letter_gate (db : Database) (store : DocumentStore)
    (id : Nat) (f : String) :
    (∀ r, db.find? (fun q => q.id == id) = some r →
      (((Unnamed.uploadOfferLetter db store (some id) (some f)).response =
          .uploaded id f) ↔ r.status = "Approved")
      ∧ (r.status ≠ "Approved" →
          Unnamed.uploadOfferLetter db store (some id) (some f) =
            ⟨.notApproved, db, store.erase f⟩)
      ∧ (Backend.uploadOfferLetter db store id (some f)).response = .uploaded f)
    ∧ (db.find? (fun q => q.id == id) = none →
        Unnamed.uploadOfferLetter db store (some id) (some f) =
          ⟨.notFound, db, store.erase f⟩
        ∧ Backend.uploadOfferLetter db store id (some f) =
          ⟨.notFound, db, store.erase f⟩) := by
  refine ⟨?_, ?_⟩
  · intro r hr
    refine ⟨?_, ?_, ?_⟩
    · by_cases h : r.status = "Approved" <;>
        simp [Unnamed.uploadOfferLetter, hr, h]
    · intro h
      simp [Unnamed.uploadOfferLetter, hr, h]
    · simp [Backend.uploadOfferLetter, hr]
  · intro hr
    exact ⟨by simp [Unnamed.uploadOfferLetter, hr],
           by simp [Backend.uploadOfferLetter, hr]⟩

/-- C1 amended witness: in the part_000 server, issuance on the Pending
application fails with the not-approved response, the staged file is
removed from the store, and the table is unchanged. -/
theorem C1_offer_letter_gate_witness :
    Unnamed.uploadOfferLetter [pendingApp] ["offerLetter-9.pdf"] (some 1)
      (some "offerLetter-9.pdf") =
    ⟨.notApproved, [pendingApp], []⟩ :=
  ((C1_offer_letter_gate [pendingApp] ["offerLetter-9.pdf"] 1
      "offerLetter-9.pdf").1 pendingApp (by decide)).2.1 (by decide)

/-- C7 counterexample: re-issuance in the Backend server does not delete
the previously stored offer-letter file: after issuing a new offer letter
for an Approved application that already records one, both the old and
the new file remain in the store, so there is not exactly one current
offer-letter file. -/
theorem C7_counterexample :
    approvedWithOffer.offer_letter_path = some "offerLetter-100-old.pdf"
    ∧ Backend.uploadOfferLetter [approvedWithOffer]
        ["offerLetter-100-old.pdf", "offerLetter-200-new.pdf"] 3
        (some "offerLetter-200-new.pdf") =
      ⟨.uploaded "offerLetter-200-new.pdf",
       [{ approvedWithOffer with
            offer_letter_path := some "offerLetter-200-new.pdf" }],
       ["offerLetter-100-old.pdf", "offerLetter-200-new.pdf"]⟩ := by decide

/-- C7 amended: in the part_000 server, re-issuing an offer letter on an
already-Approved application with a recorded and present offer-letter
file deletes the old file from the store, keeps the new staged file, and
points offer_letter_path of that record at the new filename, leaving
exactly one current file and one pointer; the Backend server updates the
pointer but leaves the superseded file in the store. -/
theorem C7_reissue_replaces_file (db : Database) (store : DocumentStore)
    (id : Nat) (oldf newf : String) (r : AppRecord)
    (hr : db.find? (fun q => q.id == id) = some r)
    (happ : r.status = "Approved")
    (hold : r.offer_letter_path = some oldf)
    (hmem : oldf ∈ store) (hnew : newf ∈ store) (hne : newf ≠ oldf)
    (hnd : store.Nodup) :
    Unnamed.uploadOfferLetter db store (some id) (some newf) =
      ⟨.uploaded id newf,
       db.map (fun q =>
         if q.id = id then { q with offer_letter_path := some newf } else q),
       store.erase oldf⟩
    ∧ oldf ∉ store.erase oldf
    ∧ newf ∈ store.erase oldf
    ∧ (Backend.uploadOfferLetter db store id (some newf)).store = store := by
  refine ⟨?_, ?_, ?_, ?_⟩
  · simp [Unnamed.uploadOfferLetter, hr, happ, hold, hmem]
  · intro h
    exact absurd ((hnd.mem_erase_iff).1 h).1 (by simp)
  · exact (List.mem_erase_of_ne hne).2 hnew
  · simp [Backend.uploadOfferLetter, hr]

/-- C7 amended witness: re-issuance on the Approved application with the
recorded old file leaves exactly the new file in the store and the new
pointer on the record. -/
theorem C7_reissue_replaces_file_witness :
    Unnamed.uploadOfferLetter [approvedWithOffer]
      ["offerLetter-100-old.pdf", "offerLetter-200-new.pdf"] (some 3)
      (some "offerLetter-200-new.pdf") =
    ⟨.uploaded 3 "offerLetter-200-new.pdf",
     [approvedWithOffer].map (fun q =>
       if q.id = 3 then
         { q with offer_letter_path := some "offerLetter-200-new.pdf" }
       else q),
     ["offerLetter-200-new.pdf"]⟩ :=
  (C7_reissue_replaces_file [approvedWithOffer]
    ["offerLetter-100-old.pdf", "offerLetter-200-new.pdf"] 3
    "offerLetter-100-old.pdf" "offerLetter-200-new.pdf" approvedWithOffer
    (by decide) (by decide) (by decide) (by decide) (by decide) (by decide)
    (by decide)).1

/-- C8: offer-letter retrieval in src/unnamed/part_000 succeeds exactly
when the supplied nonempty (reference_id, email) pair matches a record
with status Approved that records an offer_letter_path naming a file
present in the store; absence of such a record (in particular any
mismatch of either credential), absence of the pointer, and absence of
the underlying file yield three pairwise distinct 404 responses. -/
theorem C8_retrieval_characterisation (db : Database) (store : DocumentStore)
    (rid em : String) (hrid : rid ≠ "") (hem : em ≠ "") :
    ((∃ p, Unnamed.getOfferLetter db store (some rid) (some em) = .found p) ↔
      ∃ r p, db.find? (Unnamed.offerQueryMatch rid em) = some r
        ∧ r.offer_letter_path = some p ∧ p ∈ store)
    ∧ (db.find? (Unnamed.offerQueryMatch rid em) = none →
        Unnamed.getOfferLetter db store (some rid) (some em) =
          .appNotFoundOrNotApproved)
    ∧ (∀ r, db.find? (Unnamed.offerQueryMatch rid em) = some r →
        r.offer_letter_path = none →
        Unnamed.getOfferLetter db store (some rid) (some em) =
          .offerLetterNotFound)
    ∧ (∀ r p, db.find? (Unnamed.offerQueryMatch rid em) = some r →
        r.offer_letter_path = some p → p ∉ store →
        Unnamed.getOfferLetter db store (some rid) (some em) =
          .fileNotFoundOnServer)
    ∧ ((∀ r ∈ db, ¬(r.reference_id = rid ∧ r.email = em
          ∧ r.status = "Approved")) →
        Unnamed.getOfferLetter db store (some rid) (some em) =
          .appNotFoundOrNotApproved)
    ∧ (Unnamed.OfferRetrievalResult.appNotFoundOrNotApproved ≠
        .offerLetterNotFound
      ∧ Unnamed.OfferRetrievalResult.appNotFoundOrNotApproved ≠
        .fileNotFoundOnServer
      ∧ Unnamed.OfferRetrievalResult.offerLetterNotFound ≠
        .fileNotFoundOnServer) := by
  have hifb : (rid == "" || em == "") = false := by
    simp [hrid, hem]
  refine ⟨?_, ?_, ?_, ?_, ?_, by decide⟩
  · constructor
    · rintro ⟨p, hp⟩
      rcases hfind : db.find? (Unnamed.offerQueryMatch rid em) with _ | r
      · simp [Unnamed.getOfferLetter, hifb, hfind] at hp
      · rcases holp : r.offer_letter_path with _ | q
        · simp [Unnamed.getOfferLetter, hifb, hfind, holp] at hp
        · by_cases hq : q ∈ store
          · exact ⟨r, q, rfl, holp, hq⟩
          · simp [Unnamed.getOfferLetter, hifb, hfind, holp, hq] at hp
    · rintro ⟨r, p, hfind, holp, hp⟩
      exact ⟨p, by simp [Unnamed.getOfferLetter, hifb, hfind, holp, hp]⟩
  · intro hfind
    simp [Unnamed.getOfferLetter, hifb, hfind]
  · intro r hfind holp
    simp [Unnamed.getOfferLetter, hifb, hfind, holp]
  · intro r p hfind holp hp
    simp [Unnamed.getOfferLetter, hifb, hfind, holp, hp]
  · intro hnone
    have hfind : db.find? (Unnamed.offerQueryMatch rid em) = none := by
      rw [List.find?_eq_none]
      intro r hrmem
      have := hnone r hrmem
      simp only [Unnamed.offerQueryMatch, Bool.and_eq_true, beq_iff_eq]
      intro hc
      exact this ⟨hc.1.1, hc.1.2, hc.2⟩
    simp [Unnamed.getOfferLetter, hifb, hfind]

/-- C8 witness: with the exact credentials of the Approved application
that records a present offer letter file, retrieval succeeds; with a
mismatched email it yields the application-level 404. -/
theorem C8_retrieval_characterisation_witness :
    (∃ p, Unnamed.getOfferLetter [approvedWithOffer]
      ["offerLetter-100-old.pdf"] (some "REFAPPR0003") (some "mary@x.com") =
        .found p)
    ∧ Unnamed.getOfferLetter [approvedWithOffer]
      ["offerLetter-100-old.pdf"] (some "REFAPPR0003") (some "evil@x.com") =
        .appNotFoundOrNotApproved :=
  ⟨(C8_retrieval_characterisation [approvedWithOffer]
      ["offerLetter-100-old.pdf"] "REFAPPR0003" "mary@x.com"
      (by decide) (by decide)).1.mpr
    ⟨approvedWithOffer, "offerLetter-100-old.pdf", by decide, by decide,
     by decide⟩,
   (C8_retrieval_characterisation [approvedWithOffer]
      ["offerLetter-100-old.pdf"] "REFAPPR0003" "evil@x.com"
      (by decide) (by decide)).2.1 (by decide)⟩

/-- C5 counterexample: in the part_000 server a submission with both
full_name and email missing is rejected with a message naming only
full_name, the first missing field, not every missing field; the file
already staged by the upload middleware also remains in the store. -/
theorem C5_counterexample :
    FormData.truthy formMissingTwo "full_name" = false
    ∧ FormData.truthy formMissingTwo "email" = false
    ∧ Unnamed.handleSubmitRequest [] [] formMissingTwo onlySscDoc "REFX" =
      ⟨.missingField "full_name", [], ["sscDoc-7.pdf"]⟩ := by decide

/-- C5 amended: on a submission with missing or empty required scalar
fields, the Backend server rejects with the complete list of missing
fields, while the part_000 server rejects naming only the first missing
field in requiredFields order; both leave the table unchanged, and files
already staged by the upload middleware remain in the store. -/
theorem C5_missing_fields (db : Database) (store : DocumentStore)
    (form : FormData) (files : UploadedFiles) (refId : String) (f : String)
    (hf : Unnamed.firstMissingField form = some f) :
    Unnamed.handleSubmitRequest db store form files refId =
      ⟨.missingField f, db, store ++ files.staged⟩
    ∧ (Backend.missingFields form ≠ [] →
        Backend.handleSubmitRequest db store form files refId =
          ⟨.missingRequiredFields (Backend.missingFields form), db,
           store ++ files.staged⟩) := by
  refine ⟨?_, ?_⟩
  · simp [Unnamed.handleSubmitRequest, Unnamed.submitApplication, hf]
  · intro h
    simp [Backend.handleSubmitRequest, Backend.submitApplication,
      List.isEmpty_iff, h]

/-- C5 amended witness: with full_name and email both missing, part_000
reports only full_name while Backend reports both; in each server the
table stays empty and the staged file stays in the store. -/
theorem C5_missing_fields_witness :
    Unnamed.handleSubmitRequest [] [] formMissingTwo onlySscDoc "REFX" =
      ⟨.missingField "full_name", [], ["sscDoc-7.pdf"]⟩
    ∧ Backend.handleSubmitRequest [] [] formMissingTwo onlySscDoc "REFX" =
      ⟨.missingRequiredFields ["full_name", "email"], [], ["sscDoc-7.pdf"]⟩ :=
  ⟨(C5_missing_fields [] [] formMissingTwo onlySscDoc "REFX" "full_name"
      (by decide)).1,
   (C5_missing_fields [] [] formMissingTwo onlySscDoc "REFX" "full_name"
      (by decide)).2 (by decide)⟩

/-- C6 counterexample: in the part_000 server a submission with the SSC
document staged but the intermediate and graduation documents missing is
rejected with the constant missing-documents response, which names no
document, and the staged SSC file remains in the Document Store; the
Backend server does not check required documents at all and accepts the
same submission. -/
theorem C6_counterexample :
    Unnamed.handleSubmitRequest [] [] fullForm onlySscDoc "REFY" =
      ⟨.missingDocuments, [], ["sscDoc-7.pdf"]⟩
    ∧ (["sscDoc-7.pdf"] : DocumentStore) ≠ []
    ∧ (Backend.handleSubmitRequest [] [] fullForm onlySscDoc "REFY").response =
      .created "REFY" := by decide

/-- C6 amended: when every required scalar field is present but a required
document is missing, the part_000 server fails with the constant
missing-documents response (which does not name the missing documents)
and creates no record, while the files already staged by the upload
middleware remain in the store; the Backend server performs no
required-document check and creates the record whenever its five required
scalar fields are present and the reference id does not conflict. -/
theorem C6_missing_documents (db : Database) (store : DocumentStore)
    (form : FormData) (files : UploadedFiles) (refId : String)
    (hform : Unnamed.firstMissingField form = none)
    (hdoc : files.sscDoc = none ∨ files.intermediateDoc = none
      ∨ files.graduationDoc = none) :
    Unnamed.handleSubmitRequest db store form files refId =
      ⟨.missingDocuments, db, store ++ files.staged⟩
    ∧ (Backend.missingFields form = [] →
        db.any (fun q => q.reference_id == refId) = false →
        (Backend.handleSubmitRequest db store form files refId).response =
          .created refId) := by
  refine ⟨?_, ?_⟩
  · have hcond : (files.sscDoc.isNone || files.intermediateDoc.isNone
        || files.graduationDoc.isNone) = true := by
      rcases hdoc with h | h | h <;> simp [h]
    simp [Unnamed.handleSubmitRequest, Unnamed.submitApplication, hform, hcond]
  · intro hmiss href
    simp [Backend.handleSubmitRequest, Backend.submitApplication,
      Backend.insertRecord, hmiss, href]

/-- C6 amended witness: with all scalar fields present and only the SSC
document staged, part_000 rejects with the constant missing-documents
response and the staged file remains, while Backend creates the record. -/
theorem C6_missing_documents_witness :
    Unnamed.handleSubmitRequest [] [] fullForm onlySscDoc "REFY" =
      ⟨.missingDocuments, [], ["sscDoc-7.pdf"]⟩
    ∧ (Backend.handleSubmitRequest [] [] fullForm onlySscDoc "REFY").response =
      .created "REFY" :=
  ⟨(C6_missing_documents [] [] fullForm onlySscDoc "REFY" (by decide)
      (by decide)).1,
   (C6_missing_documents [] [] fullForm onlySscDoc "REFY" (by decide)
      (by decide)).2 (by decide) (by decide)⟩

/-- C2: evaluation at the failing input. A submission whose email is
already on file fails with the conflict message, but the three documents
the middleware staged for it remain in the Document Store afterwards: the
store contents after the failed submission (three files) differ from the
contents before it (empty), so the intake handler deletes none of the
documents it staged, contradicting the claim. -/
theorem C2_conflict_leaves_orphaned_documents :
    Unnamed.handleSubmitRequest [dupEmailApp] [] fullForm allDocs
      "REFNEW00001" =
      ⟨.submitError "Email already exists", [dupEmailApp],
       ["sscDoc-1.pdf", "intermediateDoc-1.pdf", "graduationDoc-1.pdf"]⟩
    ∧ (["sscDoc-1.pdf", "intermediateDoc-1.pdf", "graduationDoc-1.pdf"] :
        DocumentStore) ≠ [] := by decide

/-- C4: evaluation at the failing input. When the generated reference id
collides with the reference_id of an existing record, the intake handler
of src/unnamed/part_000 performs no regeneration or retry: the very first
collision is returned to the client directly as the generic 500 message,
and the staged documents additionally remain in the store. -/
theorem C4_reference_conflict_not_retried :
    Unnamed.handleSubmitRequest [collidingApp] [] fullForm allDocs
      "AAAAAAAAAAAAAAA" =
      ⟨.submitError "Failed to submit application", [collidingApp],
       ["sscDoc-1.pdf", "intermediateDoc-1.pdf", "graduationDoc-1.pdf"]⟩ := by
  decide
